import Mathlib

/-!
Shallow embedding of the ID generation request worker found in
`src/openg2p-sr-celery-workers/src/openg2p_sr_celery_workers/tasks/id_generation_request.py`.

The worker `id_generation_request_worker(registrant_id)` loads the queue entry
for a registrant, requests an OAuth token, calls the MOSIP Get-UIN endpoint,
validates the returned identifier against the registrant table, assigns it,
and updates the queue entry's retry bookkeeping.  Everything external to the
task body (token service, HTTP response, wall clock, commit outcomes of the
database session) is supplied through an explicit environment so the worker
becomes a pure function on database states.

Persisted rows are modelled as lists; `.first()` queries become `List.find?`
and the mutation-of-the-fetched-row followed by `session.commit()` becomes an
update of the first matching row.  Commit failures are modelled by flags in
the environment; once a commit has failed, the session's later commit in the
exception handler fails as well (the pending transaction is invalid), so the
handler's commit raises and escapes to the caller — the only escaping error,
modelled as the `escaped` field of the invocation result.
-/

/-- Status enumeration for the ID generation request
(`IDGenerationRequestStatus` from the models package; members per spec §3). -/
inductive IDGenerationRequestStatus where
  | PENDING
  | COMPLETED
  | FAILED
deriving DecidableEq, Repr

/-- Status enumeration for the downstream ID update step
(`IDGenerationUpdateStatus` from the models package; members per spec §3). -/
inductive IDGenerationUpdateStatus where
  | PENDING
  | COMPLETED
  | FAILED
deriving DecidableEq, Repr

/-- One row of the ID-generation queue (`G2PQueIDGeneration`). -/
structure G2PQueIDGeneration where
  registrant_id : String
  number_of_attempts_request : Nat
  id_generation_request_status : IDGenerationRequestStatus
  id_generation_update_status : IDGenerationUpdateStatus
  last_attempt_datetime_request : Option Nat
  last_attempt_error_code_request : Option String
deriving DecidableEq, Repr

/-- One row of the registrant table (`ResPartner`); `unique_id` is the
externally issued identifier, absent until assignment. -/
structure ResPartner where
  id : String
  unique_id : Option String
deriving DecidableEq, Repr

/-- The persisted (committed) database state: the queue table and the
registrant table. -/
structure DBState where
  queue : List G2PQueIDGeneration
  partners : List ResPartner
deriving DecidableEq, Repr

/-- The configuration surface the worker reads (`Settings`): the maximum
attempt threshold `max_id_generation_request_attempts`. -/
structure Settings where
  max_id_generation_request_attempts : Nat
deriving DecidableEq, Repr

/-- Shape of the parsed MOSIP JSON body, as consumed by
`mosip_data.get("response")["uin"]`:
the body may fail to parse, the `response` field may be absent (subscripting
`None` raises), the `uin` key may be absent (raises), or `uin` carries a
value that is either JSON null (`none`) or a string. -/
inductive MosipBody where
  | invalidJson
  | responseMissing
  | uinFieldMissing
  | uinField (uin : Option String)
deriving DecidableEq, Repr

/-- The external environment of one invocation: the token service's answer,
the HTTP status and parsed body of the MOSIP call, the wall clock
(`datetime.utcnow()`), and whether each of the three `session.commit()`
call sites succeeds. -/
structure Env where
  access_token : Option String
  http_status : Nat
  body : MosipBody
  now : Nat
  partner_commit_ok : Bool
  queue_commit_ok : Bool
  handler_commit_ok : Bool
deriving DecidableEq, Repr

/-- Python truthiness of an optional string: `None` and `""` are falsy
(`if not access_token`, `if not uin`). -/
def strOptTruthy : Option String → Bool
  | none => false
  | some s => !(s == "")

/-- `session.query(G2PQueIDGeneration).filter(registrant_id == rid).first()`. -/
def findQueueEntry (db : DBState) (rid : String) : Option G2PQueIDGeneration :=
  db.queue.find? (fun q => q.registrant_id == rid)

/-- `session.query(ResPartner).filter(ResPartner.id == rid).first()`. -/
def findResPartner (db : DBState) (rid : String) : Option ResPartner :=
  db.partners.find? (fun q => q.id == rid)

/-- `session.query(ResPartner).filter(ResPartner.unique_id == uin).first()` —
note: no exclusion of the target registrant itself. -/
def findPartnerWithUin (db : DBState) (uin : String) : Option ResPartner :=
  db.partners.find? (fun q => q.unique_id == some uin)

/-- Replace the first element satisfying `p` by its image under `f`
(the ORM mutates the single row returned by `.first()`). -/
def updateFirst {α : Type} (p : α → Bool) (f : α → α) : List α → List α
  | [] => []
  | x :: xs => if p x then f x :: xs else x :: updateFirst p f xs

/-- Commit of `res_partner.unique_id = uin` for the row fetched by id. -/
def updatePartnerUniqueId (db : DBState) (rid uin : String) : DBState :=
  { db with
    partners := updateFirst (fun q => q.id == rid)
      (fun q => { q with unique_id := some uin }) db.partners }

/-- Commit of the mutated queue-entry row (matched by its registrant id). -/
def updateQueueEntry (db : DBState) (qe : G2PQueIDGeneration) : DBState :=
  { db with
    queue := updateFirst (fun q => q.registrant_id == qe.registrant_id)
      (fun _ => qe) db.queue }

/-- The queue-entry mutations on the success path (source lines 92–98):
increment attempts, set request status COMPLETED, set update status PENDING,
stamp the attempt time, clear the error detail. -/
def applySuccessBookkeeping (now : Nat) (qe : G2PQueIDGeneration) : G2PQueIDGeneration :=
  { qe with
    number_of_attempts_request := qe.number_of_attempts_request + 1,
    id_generation_request_status := IDGenerationRequestStatus.COMPLETED,
    id_generation_update_status := IDGenerationUpdateStatus.PENDING,
    last_attempt_datetime_request := some now,
    last_attempt_error_code_request := none }

/-- The queue-entry mutations in the exception handler (source lines 109–119):
increment attempts, stamp the attempt time, record the error text, and set
FAILED exactly when the post-increment attempt count reaches the configured
maximum; otherwise the status field is left as it was. -/
def applyFailureBookkeeping (cfg : Settings) (now : Nat) (e : String)
    (qe : G2PQueIDGeneration) : G2PQueIDGeneration :=
  { qe with
    number_of_attempts_request := qe.number_of_attempts_request + 1,
    last_attempt_datetime_request := some now,
    last_attempt_error_code_request := some e,
    id_generation_request_status :=
      if qe.number_of_attempts_request + 1 ≥ cfg.max_id_generation_request_attempts then
        IDGenerationRequestStatus.FAILED
      else qe.id_generation_request_status }

/-- Outcome of a raised exception inside the `try` block: the message passed
to the handler, the commits that succeeded so far (as snapshots), the
committed database at that point, whether a commit itself failed (which
poisons the session's transaction), and whether the HTTP call had been made. -/
structure TryFailure where
  errMsg : String
  commits : List DBState
  db : DBState
  commitFailed : Bool
  authority_called : Bool
deriving DecidableEq, Repr

/-- Result of the `try` block body after the queue entry was found. -/
inductive TryResult where
  | success (commits : List DBState) (db : DBState) (qe : G2PQueIDGeneration)
  | failure (f : TryFailure)
deriving DecidableEq, Repr

/-- The `try` block of the worker after the queue entry was found
(source lines 43–99): token check, HTTP status check, body parsing and the
`not uin` check, registrant lookup, the global duplicate-UIN lookup, the
registrant commit, the success bookkeeping and the queue commit.  Every
`raise` becomes a `TryResult.failure` carrying the exception text. -/
def runTry (env : Env) (registrant_id : String) (db : DBState)
    (queue_entry : G2PQueIDGeneration) : TryResult :=
  if !(strOptTruthy env.access_token) then
    TryResult.failure ⟨"Failed to retrieve access token from token response", [], db, false, false⟩
  else if env.http_status != 200 then
    TryResult.failure
      ⟨"MOSIP Get UIN API call failed with status code " ++ toString env.http_status,
        [], db, false, true⟩
  else
    match env.body with
    | MosipBody.invalidJson =>
        TryResult.failure ⟨"JSONDecodeError", [], db, false, true⟩
    | MosipBody.responseMissing =>
        TryResult.failure ⟨"TypeError: NoneType is not subscriptable", [], db, false, true⟩
    | MosipBody.uinFieldMissing =>
        TryResult.failure ⟨"KeyError: uin", [], db, false, true⟩
    | MosipBody.uinField u =>
        if !(strOptTruthy u) then
          TryResult.failure ⟨"UIN not received from MOSIP", [], db, false, true⟩
        else
          match findResPartner db registrant_id with
          | none =>
              TryResult.failure
                ⟨"No res_partner entry found for registrant_id: " ++ registrant_id,
                  [], db, false, true⟩
          | some _ =>
              match findPartnerWithUin db (u.getD "") with
              | some _ =>
                  TryResult.failure
                    ⟨"MOSIP ID " ++ u.getD "" ++ " is already present in res_partner.unique_id",
                      [], db, false, true⟩
              | none =>
                  if !env.partner_commit_ok then
                    TryResult.failure ⟨"StorageError", [], db, true, true⟩
                  else
                    if !env.queue_commit_ok then
                      TryResult.failure
                        ⟨"StorageError", [updatePartnerUniqueId db registrant_id (u.getD "")],
                          updatePartnerUniqueId db registrant_id (u.getD ""), true, true⟩
                    else
                      TryResult.success
                        [updatePartnerUniqueId db registrant_id (u.getD ""),
                          updateQueueEntry (updatePartnerUniqueId db registrant_id (u.getD ""))
                            (applySuccessBookkeeping env.now queue_entry)]
                        (updateQueueEntry (updatePartnerUniqueId db registrant_id (u.getD ""))
                          (applySuccessBookkeeping env.now queue_entry))
                        (applySuccessBookkeeping env.now queue_entry)

/-- Observable outcome of one invocation: final committed database, the
sequence of committed snapshots, whether the token service and the authority
were called, and the exception (if any) that escaped to the caller. -/
structure InvocationResult where
  db : DBState
  commits : List DBState
  token_requested : Bool
  authority_called : Bool
  escaped : Option String
deriving DecidableEq, Repr

/-- The whole task body (source lines 23–123).  A missing queue entry is a
logged no-op.  Otherwise the `try` block runs; on failure the exception
handler applies the failure bookkeeping and commits — unless a commit already
failed inside the `try` (poisoned transaction) or the handler's own commit
fails, in which case the storage error escapes to the caller. -/
def id_generation_request_worker (cfg : Settings) (env : Env) (registrant_id : String)
    (db : DBState) : InvocationResult :=
  match findQueueEntry db registrant_id with
  | none => ⟨db, [], false, false, none⟩
  | some queue_entry =>
      match runTry env registrant_id db queue_entry with
      | TryResult.success commits db2 _ => ⟨db2, commits, true, true, none⟩
      | TryResult.failure f =>
          if f.commitFailed || !env.handler_commit_ok then
            ⟨f.db, f.commits, true, f.authority_called, some "StorageError"⟩
          else
            ⟨updateQueueEntry f.db (applyFailureBookkeeping cfg env.now f.errMsg queue_entry),
              f.commits ++
                [updateQueueEntry f.db (applyFailureBookkeeping cfg env.now f.errMsg queue_entry)],
              true, f.authority_called, none⟩

/-- A sequence of invocations for the same registrant, each starting from the
database left by the previous one. -/
def runWorkerSeq (cfg : Settings) (rid : String) (db : DBState) : List Env → DBState
  | [] => db
  | env :: rest => runWorkerSeq cfg rid (id_generation_request_worker cfg env rid db).db rest

/-- The attempt counter of the queue entry for `rid` (0 when absent). -/
def attemptsIn (db : DBState) (rid : String) : Nat :=
  match findQueueEntry db rid with
  | none => 0
  | some qe => qe.number_of_attempts_request

/-! ### Helper lemmas -/

theorem find?_updateFirst {α : Type} (p : α → Bool) (f : α → α) (xs : List α) (a : α)
    (h : xs.find? p = some a) (hf : p (f a) = true) :
    (updateFirst p f xs).find? p = some (f a) := by
  induction xs with
  | nil => simp [List.find?] at h
  | cons x xs ih =>
    by_cases hx : p x = true
    · rw [List.find?_cons_of_pos _ hx] at h
      injection h with h
      subst h
      simp [updateFirst, hx, List.find?_cons_of_pos _ hf]
    · rw [List.find?_cons_of_neg _ hx] at h
      simp only [updateFirst]
      rw [if_neg hx, List.find?_cons_of_neg _ hx]
      exact ih h

theorem findQueueEntry_queue_eq (d1 d2 : DBState) (rid : String) (h : d1.queue = d2.queue) :
    findQueueEntry d1 rid = findQueueEntry d2 rid := by
  unfold findQueueEntry
  rw [h]

theorem findQueueEntry_updateQueueEntry (db : DBState) (rid : String)
    (qe qe2 : G2PQueIDGeneration)
    (hfind : findQueueEntry db rid = some qe) (h2 : qe2.registrant_id = qe.registrant_id) :
    findQueueEntry (updateQueueEntry db qe2) rid = some qe2 := by
  have hfind' : db.queue.find? (fun q => q.registrant_id == rid) = some qe := hfind
  have hb : (qe.registrant_id == rid) = true := by
    have := List.find?_some hfind'
    simpa using this
  have hr : qe.registrant_id = rid := eq_of_beq hb
  show (updateFirst (fun q => q.registrant_id == qe2.registrant_id)
      (fun _ => qe2) db.queue).find? (fun q => q.registrant_id == rid) = some qe2
  rw [h2, hr]
  exact find?_updateFirst _ _ _ _ hfind' (by simp [h2, hr])

theorem runTry_failure_facts (env : Env) (rid : String) (db : DBState)
    (qe : G2PQueIDGeneration) (f : TryFailure)
    (h : runTry env rid db qe = TryResult.failure f) :
    f.db.queue = db.queue ∧
    (f.commitFailed = true →
      env.partner_commit_ok = false ∨ env.queue_commit_ok = false) ∧
    (f.commitFailed = false → f.db = db ∧ f.commits = []) := by
  unfold runTry at h
  repeat' split at h
  all_goals cases h
  all_goals simp_all [updatePartnerUniqueId]

theorem runTry_success_facts (env : Env) (rid : String) (db : DBState)
    (qe : G2PQueIDGeneration) (c : List DBState) (d : DBState) (q : G2PQueIDGeneration)
    (h : runTry env rid db qe = TryResult.success c d q) :
    q = applySuccessBookkeeping env.now qe ∧
    env.partner_commit_ok = true ∧ env.queue_commit_ok = true ∧
    ∃ db1 : DBState,
      d = updateQueueEntry db1 (applySuccessBookkeeping env.now qe) ∧ db1.queue = db.queue := by
  unfold runTry at h
  repeat' split at h
  all_goals cases h
  all_goals exact ⟨rfl, by simp_all, by simp_all, _, rfl, rfl⟩

theorem worker_handler_result (cfg : Settings) (env : Env) (rid : String) (db : DBState)
    (qe : G2PQueIDGeneration) (f : TryFailure)
    (hfind : findQueueEntry db rid = some qe)
    (hrun : runTry env rid db qe = TryResult.failure f)
    (hcf : f.commitFailed = false) (hh : env.handler_commit_ok = true) :
    id_generation_request_worker cfg env rid db =
      ⟨updateQueueEntry f.db (applyFailureBookkeeping cfg env.now f.errMsg qe),
        f.commits ++ [updateQueueEntry f.db (applyFailureBookkeeping cfg env.now f.errMsg qe)],
        true, f.authority_called, none⟩ := by
  simp [id_generation_request_worker, hfind, hrun, hcf, hh]

theorem worker_handler_entry_found (cfg : Settings) (env : Env) (rid : String) (db : DBState)
    (qe : G2PQueIDGeneration) (f : TryFailure)
    (hfind : findQueueEntry db rid = some qe)
    (hrun : runTry env rid db qe = TryResult.failure f)
    (hcf : f.commitFailed = false) (hh : env.handler_commit_ok = true) :
    findQueueEntry (id_generation_request_worker cfg env rid db).db rid =
      some (applyFailureBookkeeping cfg env.now f.errMsg qe) := by
  rw [worker_handler_result cfg env rid db qe f hfind hrun hcf hh]
  have hq : f.db.queue = db.queue := (runTry_failure_facts env rid db qe f hrun).1
  have hfd : findQueueEntry f.db rid = some qe := by
    rw [findQueueEntry_queue_eq f.db db rid hq]
    exact hfind
  exact findQueueEntry_updateQueueEntry f.db rid qe _ hfd rfl

theorem worker_success_result (cfg : Settings) (env : Env) (rid : String) (db : DBState)
    (qe : G2PQueIDGeneration) (c : List DBState) (d : DBState) (q : G2PQueIDGeneration)
    (hfind : findQueueEntry db rid = some qe)
    (hrun : runTry env rid db qe = TryResult.success c d q) :
    id_generation_request_worker cfg env rid db = ⟨d, c, true, true, none⟩ := by
  simp [id_generation_request_worker, hfind, hrun]

theorem worker_attempts_exact (cfg : Settings) (env : Env) (rid : String) (db : DBState)
    (qe : G2PQueIDGeneration)
    (hfind : findQueueEntry db rid = some qe)
    (hp : env.partner_commit_ok = true) (hq : env.queue_commit_ok = true)
    (hh : env.handler_commit_ok = true) :
    attemptsIn (id_generation_request_worker cfg env rid db).db rid =
      qe.number_of_attempts_request + 1 := by
  cases hrun : runTry env rid db qe with
  | success c d q =>
    obtain ⟨hqq, _, _, db1, hd, hdb1⟩ := runTry_success_facts env rid db qe c d q hrun
    have hres : (id_generation_request_worker cfg env rid db).db = d := by
      rw [worker_success_result cfg env rid db qe c d q hfind hrun]
    have hfind1 : findQueueEntry db1 rid = some qe := by
      rw [findQueueEntry_queue_eq db1 db rid hdb1]
      exact hfind
    have hfd : findQueueEntry d rid = some (applySuccessBookkeeping env.now qe) := by
      rw [hd]
      exact findQueueEntry_updateQueueEntry db1 rid qe _ hfind1 rfl
    rw [hres]
    simp [attemptsIn, hfd, applySuccessBookkeeping]
  | failure f =>
    cases hcf : f.commitFailed with
    | true =>
      rcases (runTry_failure_facts env rid db qe f hrun).2.1 hcf with h | h
      · rw [hp] at h
        cases h
      · rw [hq] at h
        cases h
    | false =>
      have hfd := worker_handler_entry_found cfg env rid db qe f hfind hrun hcf hh
      simp [attemptsIn, hfd, applyFailureBookkeeping]

theorem worker_attempts_step (cfg : Settings) (env : Env) (rid : String) (db : DBState) :
    attemptsIn db rid ≤ attemptsIn (id_generation_request_worker cfg env rid db).db rid := by
  cases hfind : findQueueEntry db rid with
  | none => simp [id_generation_request_worker, hfind]
  | some qe =>
    have hbase : attemptsIn db rid = qe.number_of_attempts_request := by
      simp [attemptsIn, hfind]
    cases hrun : runTry env rid db qe with
    | success c d q =>
      obtain ⟨hqq, _, _, db1, hd, hdb1⟩ := runTry_success_facts env rid db qe c d q hrun
      have hres : (id_generation_request_worker cfg env rid db).db = d := by
        rw [worker_success_result cfg env rid db qe c d q hfind hrun]
      have hfind1 : findQueueEntry db1 rid = some qe := by
        rw [findQueueEntry_queue_eq db1 db rid hdb1]
        exact hfind
      have hfd : findQueueEntry d rid = some (applySuccessBookkeeping env.now qe) := by
        rw [hd]
        exact findQueueEntry_updateQueueEntry db1 rid qe _ hfind1 rfl
      rw [hres, hbase]
      simp [attemptsIn, hfd, applySuccessBookkeeping]
    | failure f =>
      by_cases hesc : (f.commitFailed || !env.handler_commit_ok) = true
      · have hres : (id_generation_request_worker cfg env rid db).db = f.db := by
          simp [id_generation_request_worker, hfind, hrun, hesc]
        have hqueue : f.db.queue = db.queue := (runTry_failure_facts env rid db qe f hrun).1
        have hfd : findQueueEntry f.db rid = some qe := by
          rw [findQueueEntry_queue_eq f.db db rid hqueue]
          exact hfind
        rw [hres, hbase]
        simp [attemptsIn, hfd]
      · have hesc' : f.commitFailed = false ∧ env.handler_commit_ok = true := by
          simpa using hesc
        have hfd := worker_handler_entry_found cfg env rid db qe f hfind hrun hesc'.1 hesc'.2
        rw [hbase]
        simp [attemptsIn, hfd, applyFailureBookkeeping]

theorem runWorkerSeq_attempts_mono (cfg : Settings) (rid : String) :
    ∀ (envs : List Env) (db : DBState),
      attemptsIn db rid ≤ attemptsIn (runWorkerSeq cfg rid db envs) rid := by
  intro envs
  induction envs with
  | nil =>
    intro db
    exact le_refl _
  | cons e rest ih =>
    intro db
    simp only [runWorkerSeq]
    exact le_trans (worker_attempts_step cfg e rid db) (ih _)

theorem worker_happy_path (cfg : Settings) (env : Env) (rid uin : String) (db : DBState)
    (qe : G2PQueIDGeneration) (p : ResPartner)
    (hfind : findQueueEntry db rid = some qe)
    (htok : strOptTruthy env.access_token = true)
    (hst : env.http_status = 200)
    (hbody : env.body = MosipBody.uinField (some uin))
    (huin : uin ≠ "")
    (hrp : findResPartner db rid = some p)
    (hdup : findPartnerWithUin db uin = none)
    (hc1 : env.partner_commit_ok = true) (hc2 : env.queue_commit_ok = true) :
    id_generation_request_worker cfg env rid db =
      ⟨updateQueueEntry (updatePartnerUniqueId db rid uin) (applySuccessBookkeeping env.now qe),
        [updatePartnerUniqueId db rid uin,
          updateQueueEntry (updatePartnerUniqueId db rid uin) (applySuccessBookkeeping env.now qe)],
        true, true, none⟩ ∧
    findResPartner (id_generation_request_worker cfg env rid db).db rid =
      some { p with unique_id := some uin } ∧
    findQueueEntry (id_generation_request_worker cfg env rid db).db rid =
      some (applySuccessBookkeeping env.now qe) := by
  have huin' : (uin == "") = false := by simpa using huin
  have htu : strOptTruthy (some uin) = true := by simp [strOptTruthy, huin']
  have hrun : runTry env rid db qe = TryResult.success
      [updatePartnerUniqueId db rid uin,
        updateQueueEntry (updatePartnerUniqueId db rid uin) (applySuccessBookkeeping env.now qe)]
      (updateQueueEntry (updatePartnerUniqueId db rid uin) (applySuccessBookkeeping env.now qe))
      (applySuccessBookkeeping env.now qe) := by
    simp [runTry, htok, hst, hbody, htu, hrp, hdup, hc1, hc2]
  have hworker := worker_success_result cfg env rid db qe _ _ _ hfind hrun
  refine ⟨hworker, ?_, ?_⟩
  · rw [hworker]
    have hrp' : db.partners.find? (fun q => q.id == rid) = some p := hrp
    have hb := List.find?_some hrp'
    show (updateFirst (fun q => q.id == rid)
        (fun q => { q with unique_id := some uin }) db.partners).find?
        (fun q => q.id == rid) = some { p with unique_id := some uin }
    exact find?_updateFirst _ _ _ _ hrp' hb
  · rw [hworker]
    have hfind1 : findQueueEntry (updatePartnerUniqueId db rid uin) rid = some qe := hfind
    exact findQueueEntry_updateQueueEntry _ rid qe _ hfind1 rfl

/-! ### Claim theorems -/

/-- C1: the claim says a replay after a crash between the two commits (the
registrant already holds the issued identifier, the queue entry is still
PENDING) detects the existing assignment and completes without calling the
authority and without a duplicate-identifier failure against the registrant
itself.  The code has no such reconciliation: evaluated at exactly that
state, with the authority returning the already-held identifier "U1", the
worker requests a token, calls the authority again (`authority_called = true`),
raises the duplicate-identifier exception against the registrant itself, and
leaves the entry PENDING with the attempt count bumped to 2 — not COMPLETED. -/
theorem c1_replay_after_crash_calls_authority_and_fails :
    id_generation_request_worker ⟨3⟩
        ⟨some "tok", 200, MosipBody.uinField (some "U1"), 9, true, true, true⟩ "r1"
        ⟨[⟨"r1", 1, IDGenerationRequestStatus.PENDING, IDGenerationUpdateStatus.PENDING,
            some 3, none⟩],
          [⟨"r1", some "U1"⟩]⟩ =
      ⟨⟨[⟨"r1", 2, IDGenerationRequestStatus.PENDING, IDGenerationUpdateStatus.PENDING,
            some 9, some "MOSIP ID U1 is already present in res_partner.unique_id"⟩],
          [⟨"r1", some "U1"⟩]⟩,
        [⟨[⟨"r1", 2, IDGenerationRequestStatus.PENDING, IDGenerationUpdateStatus.PENDING,
            some 9, some "MOSIP ID U1 is already present in res_partner.unique_id"⟩],
          [⟨"r1", some "U1"⟩]⟩],
        true, true, none⟩ := by
  decide

/-- C2: the claim says invoking the worker on a COMPLETED (or FAILED) entry is
a no-op for `request_status` and the attempt count.  The code never inspects
`request_status`: evaluated on a COMPLETED entry with 2 attempts and
`max_id_generation_request_attempts = 3`, a token failure bumps the attempt
count to 3 and transitions the entry COMPLETED → FAILED. -/
theorem c2_completed_entry_transitions_to_failed :
    findQueueEntry
        (id_generation_request_worker ⟨3⟩
          ⟨none, 200, MosipBody.uinField (some "U1"), 9, true, true, true⟩ "r1"
          ⟨[⟨"r1", 2, IDGenerationRequestStatus.COMPLETED, IDGenerationUpdateStatus.PENDING,
              some 1, none⟩], []⟩).db "r1" =
      some ⟨"r1", 3, IDGenerationRequestStatus.FAILED, IDGenerationUpdateStatus.PENDING,
        some 9, some "Failed to retrieve access token from token response"⟩ := by
  decide

/-- C5: the claim says a duplicate-identifier failure occurs iff the returned
identifier is held by a registrant DIFFERENT from the target; a self-held
identifier is not a collision.  The code's duplicate query
(`ResPartner.unique_id == uin`) does not exclude the target: here the only
holder of "U1" is the target registrant itself (first conjunct), yet the
worker records the duplicate-identifier failure as a counted attempt
(second conjunct). -/
theorem c5_self_held_identifier_counted_as_collision :
    findPartnerWithUin
        ⟨[⟨"r1", 0, IDGenerationRequestStatus.PENDING, IDGenerationUpdateStatus.PENDING,
            none, none⟩], [⟨"r1", some "U1"⟩]⟩ "U1" = some ⟨"r1", some "U1"⟩ ∧
    findQueueEntry
        (id_generation_request_worker ⟨5⟩
          ⟨some "t", 200, MosipBody.uinField (some "U1"), 4, true, true, true⟩ "r1"
          ⟨[⟨"r1", 0, IDGenerationRequestStatus.PENDING, IDGenerationUpdateStatus.PENDING,
              none, none⟩], [⟨"r1", some "U1"⟩]⟩).db "r1" =
      some ⟨"r1", 1, IDGenerationRequestStatus.PENDING, IDGenerationUpdateStatus.PENDING,
        some 4, some "MOSIP ID U1 is already present in res_partner.unique_id"⟩ := by
  decide

/-- C7: when no queue entry exists for the given registrant id, the worker is
a logged no-op: the database is unchanged, nothing is committed, no token is
requested, the authority is not called, and nothing escapes to the caller. -/
theorem c7_missing_queue_entry_noop (cfg : Settings) (env : Env) (rid : String) (db : DBState)
    (h : findQueueEntry db rid = none) :
    id_generation_request_worker cfg env rid db = ⟨db, [], false, false, none⟩ := by
  simp [id_generation_request_worker, h]

/-- C7 witness: a concrete run with an absent queue entry. -/
theorem c7_missing_queue_entry_noop_witness :
    id_generation_request_worker ⟨3⟩
        ⟨some "tok", 200, MosipBody.uinField (some "U1"), 7, true, true, true⟩ "zz"
        ⟨[⟨"r1", 0, IDGenerationRequestStatus.PENDING, IDGenerationUpdateStatus.PENDING,
            none, none⟩], []⟩ =
      ⟨⟨[⟨"r1", 0, IDGenerationRequestStatus.PENDING, IDGenerationUpdateStatus.PENDING,
            none, none⟩], []⟩, [], false, false, none⟩ :=
  c7_missing_queue_entry_noop ⟨3⟩
    ⟨some "tok", 200, MosipBody.uinField (some "U1"), 7, true, true, true⟩ "zz"
    ⟨[⟨"r1", 0, IDGenerationRequestStatus.PENDING, IDGenerationUpdateStatus.PENDING,
        none, none⟩], []⟩ (by decide)

/-- C3: whenever the queue entry is found and any later step of the try block
fails (no usable token, non-200 status, malformed body, falsy identifier,
missing registrant, or duplicate identifier — every `TryResult.failure` with
no failed commit), the handler increments `number_of_attempts_request` by
one, stamps `last_attempt_datetime_request`, records the failure text in
`last_attempt_error_code_request`, and sets `request_status` to FAILED iff
the post-increment attempt count reaches the configured maximum, leaving a
PENDING entry PENDING otherwise. -/
theorem c3_failure_bookkeeping (cfg : Settings) (env : Env) (rid : String) (db : DBState)
    (qe : G2PQueIDGeneration) (f : TryFailure)
    (hfind : findQueueEntry db rid = some qe)
    (hrun : runTry env rid db qe = TryResult.failure f)
    (hcf : f.commitFailed = false)
    (hh : env.handler_commit_ok = true)
    (hpend : qe.id_generation_request_status = IDGenerationRequestStatus.PENDING) :
    findQueueEntry (id_generation_request_worker cfg env rid db).db rid =
      some (applyFailureBookkeeping cfg env.now f.errMsg qe) ∧
    (applyFailureBookkeeping cfg env.now f.errMsg qe).number_of_attempts_request =
      qe.number_of_attempts_request + 1 ∧
    (applyFailureBookkeeping cfg env.now f.errMsg qe).last_attempt_datetime_request =
      some env.now ∧
    (applyFailureBookkeeping cfg env.now f.errMsg qe).last_attempt_error_code_request =
      some f.errMsg ∧
    ((applyFailureBookkeeping cfg env.now f.errMsg qe).id_generation_request_status =
        IDGenerationRequestStatus.FAILED ↔
      qe.number_of_attempts_request + 1 ≥ cfg.max_id_generation_request_attempts) ∧
    (qe.number_of_attempts_request + 1 < cfg.max_id_generation_request_attempts →
      (applyFailureBookkeeping cfg env.now f.errMsg qe).id_generation_request_status =
        IDGenerationRequestStatus.PENDING) := by
  have hstat : (applyFailureBookkeeping cfg env.now f.errMsg qe).id_generation_request_status =
      if qe.number_of_attempts_request + 1 ≥ cfg.max_id_generation_request_attempts then
        IDGenerationRequestStatus.FAILED
      else qe.id_generation_request_status := rfl
  refine ⟨worker_handler_entry_found cfg env rid db qe f hfind hrun hcf hh, rfl, rfl, rfl, ?_, ?_⟩
  · rw [hstat]
    by_cases hc : qe.number_of_attempts_request + 1 ≥ cfg.max_id_generation_request_attempts
    · simp [hc]
    · simp [hc, hpend]
  · intro hlt
    rw [hstat, if_neg (by omega), hpend]

/-- C3 witness: concrete failing run (token service returned nothing),
starting from a PENDING entry with 0 attempts and a threshold of 3. -/
theorem c3_failure_bookkeeping_witness :
    findQueueEntry
        (id_generation_request_worker ⟨3⟩
          ⟨none, 200, MosipBody.uinField (some "U1"), 11, true, true, true⟩ "r1"
          ⟨[⟨"r1", 0, IDGenerationRequestStatus.PENDING, IDGenerationUpdateStatus.PENDING,
              none, none⟩], []⟩).db "r1" =
      some (applyFailureBookkeeping ⟨3⟩ 11 "Failed to retrieve access token from token response"
        ⟨"r1", 0, IDGenerationRequestStatus.PENDING, IDGenerationUpdateStatus.PENDING,
          none, none⟩) :=
  (c3_failure_bookkeeping ⟨3⟩
    ⟨none, 200, MosipBody.uinField (some "U1"), 11, true, true, true⟩ "r1"
    ⟨[⟨"r1", 0, IDGenerationRequestStatus.PENDING, IDGenerationUpdateStatus.PENDING,
        none, none⟩], []⟩
    ⟨"r1", 0, IDGenerationRequestStatus.PENDING, IDGenerationUpdateStatus.PENDING, none, none⟩
    ⟨"Failed to retrieve access token from token response", [],
      ⟨[⟨"r1", 0, IDGenerationRequestStatus.PENDING, IDGenerationUpdateStatus.PENDING,
          none, none⟩], []⟩, false, false⟩
    (by decide) (by decide) rfl rfl rfl).1

/-- C4 counterexample: the claim's precondition "no OTHER registrant holds the
identifier" also admits the state in which the TARGET registrant itself
already holds it.  Here the only partner is the target "r1" holding "U1"
(second conjunct: no different registrant holds "U1"), the authority returns
"U1", yet the entry's status after `process` is PENDING, not COMPLETED as the
claim asserts — the duplicate check fails against the registrant itself. -/
theorem c4_counterexample_self_held_identifier :
    ((findQueueEntry
        (id_generation_request_worker ⟨4⟩
          ⟨some "t2", 200, MosipBody.uinField (some "U1"), 5, true, true, true⟩ "r1"
          ⟨[⟨"r1", 0, IDGenerationRequestStatus.PENDING, IDGenerationUpdateStatus.PENDING,
              none, none⟩], [⟨"r1", some "U1"⟩]⟩).db "r1").map
        (fun q => q.id_generation_request_status) = some IDGenerationRequestStatus.PENDING) ∧
    (⟨[⟨"r1", 0, IDGenerationRequestStatus.PENDING, IDGenerationUpdateStatus.PENDING,
        none, none⟩], [⟨"r1", some "U1"⟩]⟩ : DBState).partners.find?
        (fun q => q.unique_id == some "U1" && !(q.id == "r1")) = none := by
  decide

/-- C4 (amended): when the queue entry exists, a token is obtained, the
authority returns a non-empty identifier, the registrant exists, and NO
registrant at all (the target included) holds the identifier, the worker
assigns the identifier to the registrant's `unique_id`, increments the
attempt count by one, sets request status COMPLETED, sets update status
PENDING, stamps the attempt time, clears the error detail, and persists the
registrant change and the queue-entry change as two separately committed
steps (the first committed snapshot leaves the queue untouched). -/
theorem c4_happy_path_amended (cfg : Settings) (env : Env) (rid uin : String) (db : DBState)
    (qe : G2PQueIDGeneration) (p : ResPartner)
    (hfind : findQueueEntry db rid = some qe)
    (htok : strOptTruthy env.access_token = true)
    (hst : env.http_status = 200)
    (hbody : env.body = MosipBody.uinField (some uin))
    (huin : uin ≠ "")
    (hrp : findResPartner db rid = some p)
    (hdup : findPartnerWithUin db uin = none)
    (hc1 : env.partner_commit_ok = true) (hc2 : env.queue_commit_ok = true) :
    id_generation_request_worker cfg env rid db =
      ⟨updateQueueEntry (updatePartnerUniqueId db rid uin) (applySuccessBookkeeping env.now qe),
        [updatePartnerUniqueId db rid uin,
          updateQueueEntry (updatePartnerUniqueId db rid uin)
            (applySuccessBookkeeping env.now qe)],
        true, true, none⟩ ∧
    findResPartner (id_generation_request_worker cfg env rid db).db rid =
      some { p with unique_id := some uin } ∧
    findQueueEntry (id_generation_request_worker cfg env rid db).db rid =
      some (applySuccessBookkeeping env.now qe) ∧
    (applySuccessBookkeeping env.now qe).number_of_attempts_request =
      qe.number_of_attempts_request + 1 ∧
    (applySuccessBookkeeping env.now qe).id_generation_request_status =
      IDGenerationRequestStatus.COMPLETED ∧
    (applySuccessBookkeeping env.now qe).id_generation_update_status =
      IDGenerationUpdateStatus.PENDING ∧
    (applySuccessBookkeeping env.now qe).last_attempt_datetime_request = some env.now ∧
    (applySuccessBookkeeping env.now qe).last_attempt_error_code_request = none ∧
    (updatePartnerUniqueId db rid uin).queue = db.queue := by
  obtain ⟨h1, h2, h3⟩ :=
    worker_happy_path cfg env rid uin db qe p hfind htok hst hbody huin hrp hdup hc1 hc2
  exact ⟨h1, h2, h3, rfl, rfl, rfl, rfl, rfl, rfl⟩

/-- C4 witness: the happy path at Scenario A's state — PENDING entry with 0
attempts, registrant without an identifier, authority returns "U1". -/
theorem c4_happy_path_amended_witness :
    id_generation_request_worker ⟨3⟩
        ⟨some "tok", 200, MosipBody.uinField (some "U1"), 7, true, true, true⟩ "r1"
        ⟨[⟨"r1", 0, IDGenerationRequestStatus.PENDING, IDGenerationUpdateStatus.PENDING,
            none, none⟩], [⟨"r1", none⟩]⟩ =
      ⟨updateQueueEntry
          (updatePartnerUniqueId
            ⟨[⟨"r1", 0, IDGenerationRequestStatus.PENDING, IDGenerationUpdateStatus.PENDING,
                none, none⟩], [⟨"r1", none⟩]⟩ "r1" "U1")
          (applySuccessBookkeeping 7
            ⟨"r1", 0, IDGenerationRequestStatus.PENDING, IDGenerationUpdateStatus.PENDING,
              none, none⟩),
        [updatePartnerUniqueId
            ⟨[⟨"r1", 0, IDGenerationRequestStatus.PENDING, IDGenerationUpdateStatus.PENDING,
                none, none⟩], [⟨"r1", none⟩]⟩ "r1" "U1",
          updateQueueEntry
            (updatePartnerUniqueId
              ⟨[⟨"r1", 0, IDGenerationRequestStatus.PENDING, IDGenerationUpdateStatus.PENDING,
                  none, none⟩], [⟨"r1", none⟩]⟩ "r1" "U1")
            (applySuccessBookkeeping 7
              ⟨"r1", 0, IDGenerationRequestStatus.PENDING, IDGenerationUpdateStatus.PENDING,
                none, none⟩)],
        true, true, none⟩ :=
  (c4_happy_path_amended ⟨3⟩
    ⟨some "tok", 200, MosipBody.uinField (some "U1"), 7, true, true, true⟩ "r1" "U1"
    ⟨[⟨"r1", 0, IDGenerationRequestStatus.PENDING, IDGenerationUpdateStatus.PENDING,
        none, none⟩], [⟨"r1", none⟩]⟩
    ⟨"r1", 0, IDGenerationRequestStatus.PENDING, IDGenerationUpdateStatus.PENDING, none, none⟩
    ⟨"r1", none⟩
    (by decide) (by decide) rfl rfl (by decide) (by decide) (by decide) rfl rfl).1

/-- C6: the worker returns normally for every error class except a storage
failure: for every environment in which the three commits succeed — whatever
the token, status, body or database — nothing escapes, and whenever something
does escape it is the storage error from a failed commit. -/
theorem c6_only_storage_error_escapes (cfg : Settings) (env : Env) (rid : String)
    (db : DBState) :
    (env.partner_commit_ok = true → env.queue_commit_ok = true →
      env.handler_commit_ok = true →
      (id_generation_request_worker cfg env rid db).escaped = none) ∧
    (∀ s : String, (id_generation_request_worker cfg env rid db).escaped = some s →
      s = "StorageError" ∧
      (env.partner_commit_ok = false ∨ env.queue_commit_ok = false ∨
        env.handler_commit_ok = false)) := by
  constructor
  · intro hp hq hh
    cases hfind : findQueueEntry db rid with
    | none => simp [id_generation_request_worker, hfind]
    | some qe =>
      cases hrun : runTry env rid db qe with
      | success c d q => simp [id_generation_request_worker, hfind, hrun]
      | failure f =>
        have hcf : f.commitFailed = false := by
          cases hcf : f.commitFailed with
          | false => rfl
          | true =>
            rcases (runTry_failure_facts env rid db qe f hrun).2.1 hcf with h | h
            · rw [hp] at h
              cases h
            · rw [hq] at h
              cases h
        simp [id_generation_request_worker, hfind, hrun, hcf, hh]
  · intro s hs
    cases hfind : findQueueEntry db rid with
    | none =>
      simp [id_generation_request_worker, hfind] at hs
    | some qe =>
      cases hrun : runTry env rid db qe with
      | success c d q =>
        rw [worker_success_result cfg env rid db qe c d q hfind hrun] at hs
        cases hs
      | failure f =>
        by_cases hesc : (f.commitFailed || !env.handler_commit_ok) = true
        · have hres : (id_generation_request_worker cfg env rid db).escaped =
              some "StorageError" := by
            simp [id_generation_request_worker, hfind, hrun, hesc]
          rw [hres] at hs
          injection hs with hs
          refine ⟨hs.symm, ?_⟩
          have hesc' : f.commitFailed = true ∨ env.handler_commit_ok = false := by
            simpa using hesc
          rcases hesc' with h | h
          · rcases (runTry_failure_facts env rid db qe f hrun).2.1 h with h' | h'
            · exact Or.inl h'
            · exact Or.inr (Or.inl h')
          · exact Or.inr (Or.inr h)
        · have hesc' : f.commitFailed = false ∧ env.handler_commit_ok = true := by
            simpa using hesc
          rw [worker_handler_result cfg env rid db qe f hfind hrun hesc'.1 hesc'.2] at hs
          cases hs

/-- C6 witness: with all three commits succeeding, a concrete failing run
(registrant missing from the partner table) escapes nothing. -/
theorem c6_only_storage_error_escapes_witness :
    (id_generation_request_worker ⟨3⟩
        ⟨some "tok", 200, MosipBody.uinField (some "U9"), 8, true, true, true⟩ "r1"
        ⟨[⟨"r1", 0, IDGenerationRequestStatus.PENDING, IDGenerationUpdateStatus.PENDING,
            none, none⟩], []⟩).escaped = none :=
  (c6_only_storage_error_escapes ⟨3⟩
    ⟨some "tok", 200, MosipBody.uinField (some "U9"), 8, true, true, true⟩ "r1"
    ⟨[⟨"r1", 0, IDGenerationRequestStatus.PENDING, IDGenerationUpdateStatus.PENDING,
        none, none⟩], []⟩).1 rfl rfl rfl

/-- C8: across any sequence of invocations for the same registrant the
attempt counter `number_of_attempts_request` never decreases, and every
single invocation that finds the queue entry and whose store commits all
succeed increments it by exactly one — whether the attempt succeeds or
fails. -/
theorem c8_attempts_monotone_and_exact (cfg : Settings) (rid : String) :
    (∀ (db : DBState) (envs : List Env),
      attemptsIn db rid ≤ attemptsIn (runWorkerSeq cfg rid db envs) rid) ∧
    (∀ (env : Env) (db : DBState) (qe : G2PQueIDGeneration),
      findQueueEntry db rid = some qe →
      env.partner_commit_ok = true → env.queue_commit_ok = true →
      env.handler_commit_ok = true →
      attemptsIn (id_generation_request_worker cfg env rid db).db rid =
        attemptsIn db rid + 1) := by
  constructor
  · intro db envs
    exact runWorkerSeq_attempts_mono cfg rid envs db
  · intro env db qe hfind hp hq hh
    have hbase : attemptsIn db rid = qe.number_of_attempts_request := by
      simp [attemptsIn, hfind]
    rw [hbase]
    exact worker_attempts_exact cfg env rid db qe hfind hp hq hh

/-- C8 witness: one successful invocation on a found entry bumps the attempt
counter from 0 to 1. -/
theorem c8_attempts_monotone_and_exact_witness :
    attemptsIn
        (id_generation_request_worker ⟨3⟩
          ⟨some "tok", 200, MosipBody.uinField (some "U1"), 7, true, true, true⟩ "r1"
          ⟨[⟨"r1", 0, IDGenerationRequestStatus.PENDING, IDGenerationUpdateStatus.PENDING,
              none, none⟩], [⟨"r1", none⟩]⟩).db "r1" =
      attemptsIn
        ⟨[⟨"r1", 0, IDGenerationRequestStatus.PENDING, IDGenerationUpdateStatus.PENDING,
            none, none⟩], [⟨"r1", none⟩]⟩ "r1" + 1 :=
  (c8_attempts_monotone_and_exact ⟨3⟩ "r1").2
    ⟨some "tok", 200, MosipBody.uinField (some "U1"), 7, true, true, true⟩
    ⟨[⟨"r1", 0, IDGenerationRequestStatus.PENDING, IDGenerationUpdateStatus.PENDING,
        none, none⟩], [⟨"r1", none⟩]⟩
    ⟨"r1", 0, IDGenerationRequestStatus.PENDING, IDGenerationUpdateStatus.PENDING, none, none⟩
    (by decide) rfl rfl rfl

/-- C9: a 200 response whose `uin` field is present but falsy (empty string
or JSON null) is treated as "UIN not received from MOSIP": the registrant
table is untouched (the falsy value is never assigned) and the failure is
counted — attempts incremented and the error detail recorded. -/
theorem c9_falsy_uin_counted_failure (cfg : Settings) (env : Env) (rid : String)
    (db : DBState) (qe : G2PQueIDGeneration) (u : Option String)
    (hfind : findQueueEntry db rid = some qe)
    (htok : strOptTruthy env.access_token = true)
    (hst : env.http_status = 200)
    (hbody : env.body = MosipBody.uinField u)
    (hfalsy : strOptTruthy u = false)
    (hh : env.handler_commit_ok = true) :
    (id_generation_request_worker cfg env rid db).db.partners = db.partners ∧
    findQueueEntry (id_generation_request_worker cfg env rid db).db rid =
      some (applyFailureBookkeeping cfg env.now "UIN not received from MOSIP" qe) ∧
    (applyFailureBookkeeping cfg env.now
        "UIN not received from MOSIP" qe).number_of_attempts_request =
      qe.number_of_attempts_request + 1 ∧
    (applyFailureBookkeeping cfg env.now
        "UIN not received from MOSIP" qe).last_attempt_error_code_request =
      some "UIN not received from MOSIP" := by
  have hrun : runTry env rid db qe = TryResult.failure
      ⟨"UIN not received from MOSIP", [], db, false, true⟩ := by
    simp [runTry, htok, hst, hbody, hfalsy]
  refine ⟨?_, worker_handler_entry_found cfg env rid db qe _ hfind hrun rfl hh, rfl, rfl⟩
  rw [worker_handler_result cfg env rid db qe _ hfind hrun rfl hh]
  rfl

/-- C9 witness: the authority answers 200 with `uin = ""`. -/
theorem c9_falsy_uin_counted_failure_witness :
    (id_generation_request_worker ⟨3⟩
        ⟨some "tok", 200, MosipBody.uinField (some ""), 6, true, true, true⟩ "r1"
        ⟨[⟨"r1", 0, IDGenerationRequestStatus.PENDING, IDGenerationUpdateStatus.PENDING,
            none, none⟩], [⟨"r1", none⟩]⟩).db.partners = [⟨"r1", none⟩] :=
  (c9_falsy_uin_counted_failure ⟨3⟩
    ⟨some "tok", 200, MosipBody.uinField (some ""), 6, true, true, true⟩ "r1"
    ⟨[⟨"r1", 0, IDGenerationRequestStatus.PENDING, IDGenerationUpdateStatus.PENDING,
        none, none⟩], [⟨"r1", none⟩]⟩
    ⟨"r1", 0, IDGenerationRequestStatus.PENDING, IDGenerationUpdateStatus.PENDING, none, none⟩
    (some "") (by decide) (by decide) rfl rfl rfl rfl).1

/-- C10: when the target registrant already holds a `unique_id` different
from the newly issued identifier and no registrant holds the new identifier,
the worker overwrites the existing `unique_id` unconditionally — there is no
guard requiring `unique_id` to be absent — and the run completes. -/
theorem c10_overwrites_existing_unique_id (cfg : Settings) (env : Env)
    (rid uin u0 : String) (db : DBState) (qe : G2PQueIDGeneration) (p : ResPartner)
    (hfind : findQueueEntry db rid = some qe)
    (htok : strOptTruthy env.access_token = true)
    (hst : env.http_status = 200)
    (hbody : env.body = MosipBody.uinField (some uin))
    (huin : uin ≠ "")
    (hrp : findResPartner db rid = some p)
    (hold : p.unique_id = some u0)
    (hne : u0 ≠ uin)
    (hdup : findPartnerWithUin db uin = none)
    (hc1 : env.partner_commit_ok = true) (hc2 : env.queue_commit_ok = true) :
    findResPartner (id_generation_request_worker cfg env rid db).db rid =
      some { p with unique_id := some uin } ∧
    findQueueEntry (id_generation_request_worker cfg env rid db).db rid =
      some (applySuccessBookkeeping env.now qe) ∧
    (applySuccessBookkeeping env.now qe).id_generation_request_status =
      IDGenerationRequestStatus.COMPLETED := by
  obtain ⟨_, h2, h3⟩ :=
    worker_happy_path cfg env rid uin db qe p hfind htok hst hbody huin hrp hdup hc1 hc2
  exact ⟨h2, h3, rfl⟩

/-- C10 witness: the registrant holds "U0", the authority returns "U1";
the worker overwrites "U0" with "U1" and completes. -/
theorem c10_overwrites_existing_unique_id_witness :
    findResPartner
        (id_generation_request_worker ⟨3⟩
          ⟨some "tok", 200, MosipBody.uinField (some "U1"), 7, true, true, true⟩ "r1"
          ⟨[⟨"r1", 1, IDGenerationRequestStatus.PENDING, IDGenerationUpdateStatus.PENDING,
              some 2, none⟩], [⟨"r1", some "U0"⟩]⟩).db "r1" =
      some ⟨"r1", some "U1"⟩ :=
  (c10_overwrites_existing_unique_id ⟨3⟩
    ⟨some "tok", 200, MosipBody.uinField (some "U1"), 7, true, true, true⟩ "r1" "U1" "U0"
    ⟨[⟨"r1", 1, IDGenerationRequestStatus.PENDING, IDGenerationUpdateStatus.PENDING,
        some 2, none⟩], [⟨"r1", some "U0"⟩]⟩
    ⟨"r1", 1, IDGenerationRequestStatus.PENDING, IDGenerationUpdateStatus.PENDING, some 2, none⟩
    ⟨"r1", some "U0"⟩
    (by decide) (by decide) rfl rfl (by decide) (by decide) rfl (by decide) (by decide)
    rfl rfl).1
